import Mathlib

/-!
Verification of the RegistryAccord Creator Data Vault (CDV) service against
its natural-language specification.  The Go source is shallowly embedded:
each handler and storage routine is translated into an executable Lean
function over explicit state, and the spec's claims are settled as theorems
about those functions.

Modelling conventions:
* Go `[]byte` / JSON text is modelled as `String`.
* `time.Time` is modelled as `Int` (UTC nanoseconds, as in `UnixNano`).
* SHA-256 hex digests are opaque to the service (only compared for
  equality), so the digest is modelled by an injective tagging function.
* JSON marshalling is modelled by concrete injective string builders that
  mirror the field layout `encoding/json` produces.  `json.Encoder.Encode`
  writes the marshalled bytes followed by a newline; `json.Marshal` does
  not append one.  This distinction is kept because the idempotency cache
  stores `Marshal` output while live responses go through `Encode`.
* Base64url+JSON cursors are modelled by a concrete injective textual
  encoding with an executable parser; strings outside the encoding's image
  fail to decode, exactly as malformed base64url fails in Go.
-/

namespace CDV

/-- Error codes of `internal/errors/errors.go` (the `CDV_*` enum). -/
inductive ErrCode where
  | validation
  | schemaReject
  | badRequest
  | cursorInvalid
  | authz
  | authn
  | jwtInvalid
  | jwtExpired
  | jwtMalformed
  | didMismatch
  | notFound
  | conflict
  | mediaChecksum
  | mediaSize
  | mediaType
  | rateLimit
  | internal
  | unavailable
  | notImplemented
deriving DecidableEq, Repr

/-- The wire form of each code (`ErrorCode` string constants in errors.go). -/
def ErrCode.codeString : ErrCode → String
  | .validation => "CDV_VALIDATION"
  | .schemaReject => "CDV_SCHEMA_REJECT"
  | .badRequest => "CDV_BAD_REQUEST"
  | .cursorInvalid => "CDV_CURSOR_INVALID"
  | .authz => "CDV_AUTHZ"
  | .authn => "CDV_AUTHN"
  | .jwtInvalid => "CDV_JWT_INVALID"
  | .jwtExpired => "CDV_JWT_EXPIRED"
  | .jwtMalformed => "CDV_JWT_MALFORMED"
  | .didMismatch => "CDV_DID_MISMATCH"
  | .notFound => "CDV_NOT_FOUND"
  | .conflict => "CDV_CONFLICT"
  | .mediaChecksum => "CDV_MEDIA_CHECKSUM"
  | .mediaSize => "CDV_MEDIA_SIZE"
  | .mediaType => "CDV_MEDIA_TYPE"
  | .rateLimit => "CDV_RATE_LIMIT"
  | .internal => "CDV_INTERNAL"
  | .unavailable => "CDV_UNAVAILABLE"
  | .notImplemented => "CDV_NOT_IMPLEMENTED"

/-- `httpStatusCodeForCode` of errors.go. -/
def httpStatusCodeForCode : ErrCode → Nat
  | .validation | .schemaReject | .badRequest | .cursorInvalid => 400
  | .authz | .didMismatch => 403
  | .authn | .jwtInvalid | .jwtExpired | .jwtMalformed => 401
  | .notFound => 404
  | .conflict => 409
  | .mediaChecksum | .mediaSize | .mediaType => 400
  | .rateLimit => 429
  | .unavailable => 503
  | .notImplemented => 501
  | .internal => 500

/-- Errors surfaced by the storage layer (`ErrNotFound`, `ErrConflict`,
and plain `errors.New` values such as "account not found"). -/
inductive StoreErr where
  | notFound
  | conflict
  | other
deriving DecidableEq, Repr

/-- Model of `fmt.Sprintf("%x", sha256.Sum256([]byte(s)))`.  The service
only ever compares digests for equality, so the hash is modelled by an
injective tag; no claim depends on digest values or collisions. -/
def sha256Hex (s : String) : String := "sha256:" ++ s

/-- A stored CDV record (`model.Record`; the `value` payload is opaque
JSON text). -/
structure Record where
  id : String
  did : String
  collection : String
  rkey : String
  uri : String
  cid : String
  value : String
  indexedAt : Int
  schemaVersion : String
deriving DecidableEq, Repr

/-- A stored media asset (`model.MediaAsset`). -/
structure MediaAsset where
  assetId : String
  did : String
  uri : String
  mimeType : String
  size : Int
  checksum : String
  createdAt : Int
deriving DecidableEq, Repr

/-! JSON marshalling models.

`writeSuccess` runs `json.NewEncoder(w).Encode(map\x7b"data": data\x7d)`,
which emits the marshalled bytes followed by a newline.  The idempotency
store caches `json.Marshal(map\x7b"data": response\x7d)` (no newline), and a
cache hit replays those stored bytes verbatim via `w.Write`. -/

/-- Model of `json.Marshal(map\x7b"data": model.CreateRecordData\x7d)`:
the exact success payload of `handleCreateRecord`. -/
def marshalCreateData (uri cid : String) (indexedAt : Int) : String :=
  "\x7b\"data\":\x7b\"uri\":\"" ++ uri ++ "\",\"cid\":\"" ++ cid ++
    "\",\"indexedAt\":" ++ toString indexedAt ++ "\x7d\x7d"

/-- Model of `json.Marshal(model.CreateRecordRequest)`: the request hash
input of the idempotency store (field layout of the Go struct tags). -/
def marshalCreateRecordRequest (collection did : String) (record : Option String)
    (createdAt : Option Int) (idempotencyKey : String) : String :=
  "\x7b\"collection\":\"" ++ collection ++ "\",\"did\":\"" ++ did ++
    "\",\"record\":" ++ (match record with | none => "null" | some v => v) ++
    (match createdAt with | none => "" | some t => ",\"createdAt\":" ++ toString t) ++
    (if idempotencyKey = "" then "" else ",\"idempotencyKey\":\"" ++ idempotencyKey ++ "\"") ++
    "\x7d"

/-- Model of the error envelope `json.Marshal` output of `writeError`. -/
def marshalErrorEnvelope (code message correlationId : String) : String :=
  "\x7b\"error\":\x7b\"code\":\"" ++ code ++ "\",\"message\":\"" ++ message ++
    "\",\"correlationId\":\"" ++ correlationId ++ "\"\x7d\x7d"

/-- `json.Encoder.Encode` = `json.Marshal` plus a trailing newline. -/
def encoderWrite (marshalled : String) : String := marshalled ++ "\n"

/-! String primitives.  Several core `String` operations are opaque to
kernel reduction, so the Go string operations the service uses are
modelled over the character list directly (CDV strings are ASCII, so
character-wise order coincides with Go's byte-wise order). -/

/-- Character-wise lexicographic strict order (Go `<` on strings). -/
def charListLtb : List Char → List Char → Bool
  | [], [] => false
  | [], _ :: _ => true
  | _ :: _, [] => false
  | a :: as, b :: bs =>
    if a.toNat < b.toNat then true
    else if b.toNat < a.toNat then false
    else charListLtb as bs

/-- Go string `<`. -/
def stringLtb (a b : String) : Bool := charListLtb a.data b.data

/-- Go `strings.HasSuffix`. -/
def strEndsWith (s pat : String) : Bool := pat.data.isSuffixOf s.data

/-- Go `strings.TrimPrefix`: drops the leading pattern when present,
otherwise returns the string unchanged. -/
def trimPfx (s pat : String) : String :=
  if pat.data.isPrefixOf s.data then s.drop pat.length else s

/-- Split a character list at its first colon. -/
def splitAtColon : List Char → Option (List Char × List Char)
  | [] => none
  | c :: rest =>
    if c = ':' then some ([], rest)
    else (splitAtColon rest).map (fun p => (c :: p.1, p.2))

/-- Parse one decimal digit. -/
def decDigit? (c : Char) : Option Nat :=
  if 48 ≤ c.toNat ∧ c.toNat ≤ 57 then some (c.toNat - 48) else none

/-- Parse a non-empty decimal numeral. -/
def decNat? (cs : List Char) : Option Nat :=
  match cs with
  | [] => none
  | _ => cs.foldl (fun acc c => acc.bind (fun n => (decDigit? c).map (fun d => 10 * n + d)))
      (some 0)

/-- Parse an optionally signed decimal integer. -/
def decInt? : List Char → Option Int
  | '-' :: rest => (decNat? rest).map (fun n => -(n : Int))
  | cs => (decNat? cs).map (fun n => (n : Int))

/-- Decode a model cursor carrying the given tag: the tag, a decimal
timestamp field, a colon, and the record key. -/
def decodeCursorTagged (tag : List Char) (cursor : String) : Option (Int × String) :=
  if tag.isPrefixOf cursor.data then
    match splitAtColon (cursor.data.drop tag.length) with
    | some (tdigits, rkey) => (decInt? tdigits).map (fun n => (n, String.mk rkey))
    | none => none
  else none

/-! Cursor encodings.

A real cursor is base64url of a small JSON object.  The two backends use
different JSON shapes (`postgres.cursorData` marshals `time.Time`;
`memory` marshals `UnixNano`), so the model gives each an injective
textual encoding with its own tag and an executable parser.  Strings
outside the image of the encoder fail to decode, as malformed base64url
or non-cursor JSON fails in Go. -/

/-- Model of `encodeCursor` (postgres backend). -/
def encodePgCursor (lastIndexedAt : Int) (lastRKey : String) : String :=
  "curP:" ++ toString lastIndexedAt ++ ":" ++ lastRKey

/-- Model of `decodeCursor` (postgres backend); `none` models the
"invalid cursor format" / "invalid cursor data" error returns. -/
def decodePgCursor (cursor : String) : Option (Int × String) :=
  decodeCursorTagged "curP:".data cursor

/-- Model of `encodeMemoryCursor` (in-memory backend). -/
def encodeMemoryCursor (lastIndexedAt : Int) (lastRKey : String) : String :=
  "curM:" ++ toString lastIndexedAt ++ ":" ++ lastRKey

/-- Model of `decodeMemoryCursor` (in-memory backend). -/
def decodeMemoryCursor (cursor : String) : Option (Int × String) :=
  decodeCursorTagged "curM:".data cursor

/-! ListRecords data model. -/

/-- `model.ListRecordsQuery`; a zero `time.Time` for `Since`/`Until` is
modelled as `none`, the empty cursor/collection strings mean "absent". -/
structure ListRecordsQuery where
  did : String
  collection : String
  limit : Int
  cursor : String
  since : Option Int
  until_ : Option Int
deriving DecidableEq, Repr

/-- `model.ListRecordsResult` (`NextCursor` empty string = absent,
modelled as `Option`). -/
structure ListRecordsResult where
  records : List Record
  nextCursor : Option String
deriving DecidableEq, Repr

/-- The `sort.Slice` comparator of `memory.ListRecords` and the
`ORDER BY indexed_at DESC, rkey ASC` ordering of the SQL query:
descending `indexedAt`, ties broken by ascending `rkey`. -/
def recordLess (a b : Record) : Bool :=
  if a.indexedAt = b.indexedAt then stringLtb a.rkey b.rkey
  else b.indexedAt < a.indexedAt

/-- Stable insertion w.r.t. `recordLess`. -/
def insertByLess (r : Record) : List Record → List Record
  | [] => [r]
  | x :: xs => if recordLess r x then r :: x :: xs else x :: insertByLess r xs

/-- Sorting by `recordLess` (models both `sort.Slice` and SQL `ORDER BY`;
on the filtered row sets of the claims the comparator is total, so any
correct sort yields this order). -/
def sortRecords (rs : List Record) : List Record :=
  rs.foldr insertByLess []

/-- The cursor predicate of both backends:
`indexed_at < last OR (indexed_at = last AND rkey > lastRKey)`. -/
def afterCursor (lastIndexedAt : Int) (lastRKey : String) (r : Record) : Bool :=
  r.indexedAt < lastIndexedAt || (r.indexedAt = lastIndexedAt && stringLtb lastRKey r.rkey)

/-- Limit clamping shared by both backends
(`<= 0` → 25, `> 100` → 100). -/
def clampLimit (limit : Int) : Nat :=
  if limit ≤ 0 then 25 else if limit > 100 then 100 else limit.toNat

/-! The in-memory storage backend (internal/storage/memory.go).  The
`records` map and the `recordsByDID` index are collapsed into one
insertion-ordered list: `CreateRecord` appends to both, so
`recordsByDID[did]` is exactly the in-order sublist with that `did`. -/

/-- A cached idempotent response of the in-memory backend
(`storage.IdempotentResponse`: no request hash is stored). -/
structure IdempotentResponse where
  responseBody : String
  statusCode : Nat
  expiresAt : Int
deriving DecidableEq, Repr

/-- State of the in-memory backend. -/
structure MemoryStore where
  accounts : List String
  records : List Record
  mediaAssets : List (String × MediaAsset)
  idempotency : List (String × IdempotentResponse)
deriving DecidableEq, Repr

/-- The empty store produced by `NewMemory`. -/
def MemoryStore.empty : MemoryStore :=
  { accounts := [], records := [], mediaAssets := [], idempotency := [] }

/-- `memory.CreateAccount`. -/
def memCreateAccount (st : MemoryStore) (did : String) : Except StoreErr MemoryStore :=
  if st.accounts.contains did then .error .conflict
  else .ok { st with accounts := st.accounts ++ [did] }

/-- `memory.GetAccount` (only the existence outcome is observable). -/
def memGetAccount (st : MemoryStore) (did : String) : Bool :=
  st.accounts.contains did

/-- `memory.CreateRecord`: requires the account, conflicts on a duplicate
URI, otherwise appends (keeping both indexes in insertion order). -/
def memCreateRecord (st : MemoryStore) (r : Record) : Except StoreErr MemoryStore :=
  if ¬ st.accounts.contains r.did then .error .other
  else if st.records.any (fun x => x.uri == r.uri) then .error .conflict
  else .ok { st with records := st.records ++ [r] }

/-- `memory.GetRecordByURI`. -/
def memGetRecordByURI (st : MemoryStore) (uri : String) : Option Record :=
  st.records.find? (fun x => x.uri == uri)

/-- Index (into the sorted, filtered list) of the first record satisfying
the cursor predicate — the `for i, record := range filtered` loop of
`memory.ListRecords`.  When no record satisfies it, the loop never
breaks and `startIndex` stays 0. -/
def memStartIndex (filtered : List Record) (lastIndexedAt : Int) (lastRKey : String) : Nat :=
  match filtered.findIdx? (afterCursor lastIndexedAt lastRKey) with
  | some i => i + 1
  | none => 0

/-- `memory.ListRecords`.  Note three source facts kept faithfully:
the next page starts one past the first record satisfying the cursor
predicate; a cursor that fails to decode is silently ignored
(`if err == nil`); and the `nextCursor` presence test compares against
the length of the unfiltered per-DID list (`len(records)`), not the
collection-filtered one.  `Since`/`Until` are not applied at all. -/
def memListRecords (st : MemoryStore) (q : ListRecordsQuery) : ListRecordsResult :=
  let records := st.records.filter (fun r => r.did == q.did)
  let filtered := sortRecords (records.filter
    (fun r => q.collection == "" || r.collection == q.collection))
  let startIndex :=
    if q.cursor ≠ "" then
      match decodeMemoryCursor q.cursor with
      | some (lastIndexedAt, lastRKey) => memStartIndex filtered lastIndexedAt lastRKey
      | none => 0
    else 0
  let limit := clampLimit q.limit
  let endIndex := min (startIndex + limit) filtered.length
  let page := (filtered.drop startIndex).take (endIndex - startIndex)
  let nextCursor :=
    if endIndex < records.length ∧ page ≠ [] then
      match page.getLast? with
      | some last => some (encodeMemoryCursor last.indexedAt last.rkey)
      | none => none
    else none
  { records := page, nextCursor := nextCursor }

/-- `memory.CreateMediaAsset`. -/
def memCreateMediaAsset (st : MemoryStore) (a : MediaAsset) : Except StoreErr MemoryStore :=
  if ¬ st.accounts.contains a.did then .error .other
  else if st.mediaAssets.any (fun x => x.1 == a.assetId) then .error .conflict
  else .ok { st with mediaAssets := st.mediaAssets ++ [(a.assetId, a)] }

/-- `memory.GetMediaAsset`. -/
def memGetMediaAsset (st : MemoryStore) (assetId : String) : Option MediaAsset :=
  (st.mediaAssets.find? (fun x => x.1 == assetId)).map Prod.snd

/-- `memory.UpdateMediaAsset`: replaces the entry keyed by `assetId`,
`ErrNotFound` when absent. -/
def memUpdateMediaAsset (st : MemoryStore) (a : MediaAsset) : Except StoreErr MemoryStore :=
  if st.mediaAssets.any (fun x => x.1 == a.assetId) then
    .ok { st with mediaAssets :=
      st.mediaAssets.map (fun x => if x.1 == a.assetId then (a.assetId, a) else x) }
  else .error .notFound

/-- `memory.StoreIdempotentResponse`: unconditional upsert keyed by
`keyHash` alone — the in-memory backend stores no request hash and never
reports a conflict.  (The write coordinator passes a request hash; this
backend discards it.) -/
def memStoreIdempotentResponse (st : MemoryStore) (keyHash : String)
    (responseBody : String) (statusCode : Nat) (expiresAt : Int) :
    Except StoreErr MemoryStore :=
  .ok { st with idempotency :=
    (st.idempotency.filter (fun x => x.1 != keyHash)) ++
      [(keyHash, { responseBody := responseBody, statusCode := statusCode,
                   expiresAt := expiresAt })] }

/-- `memory.GetIdempotentResponse`: lookup by `keyHash`; an entry with
`now.After(expiresAt)` (strictly later) counts as expired.  The lazy
deletion of an expired entry is not modelled: it is unobservable through
this interface (the deleted entry would never be returned again). -/
def memGetIdempotentResponse (st : MemoryStore) (now : Int) (keyHash : String) :
    Option (String × Nat) :=
  match st.idempotency.find? (fun x => x.1 == keyHash) with
  | some (_, resp) => if now > resp.expiresAt then none
      else some (resp.responseBody, resp.statusCode)
  | none => none

/-! The relational (PostgreSQL) backend (internal/storage/postgres.go),
modelled over the same pure record lists.  Table rows keep the columns
that the queries read. -/

/-- A row of the `idempotency` table. -/
structure PgIdemRow where
  keyHash : String
  requestHash : String
  responseBody : String
  responseStatus : Nat
  createdAt : Int
  expiresAt : Int
deriving DecidableEq, Repr

/-- State of the relational backend. -/
structure PgStore where
  accounts : List String
  records : List Record
  mediaAssets : List MediaAsset
  idempotency : List PgIdemRow
deriving DecidableEq, Repr

/-- The empty relational store. -/
def PgStore.empty : PgStore :=
  { accounts := [], records := [], mediaAssets := [], idempotency := [] }

/-- `postgres.CreateAccount` (unique violation on `did` → `ErrConflict`). -/
def pgCreateAccount (st : PgStore) (did : String) : Except StoreErr PgStore :=
  if st.accounts.contains did then .error .conflict
  else .ok { st with accounts := st.accounts ++ [did] }

/-- `postgres.GetAccount` existence. -/
def pgGetAccount (st : PgStore) (did : String) : Bool :=
  st.accounts.contains did

/-- `postgres.CreateRecord`: requires the account (the code checks it
first and returns a non-conflict error), then inserts; any unique-key
violation (`uri` or `(did, collection, rkey)`) → `ErrConflict`. -/
def pgCreateRecord (st : PgStore) (r : Record) : Except StoreErr PgStore :=
  if ¬ st.accounts.contains r.did then .error .other
  else if st.records.any (fun x => x.uri == r.uri || x.id == r.id ||
      (x.did == r.did && x.collection == r.collection && x.rkey == r.rkey)) then
    .error .conflict
  else .ok { st with records := st.records ++ [r] }

/-- Errors of `postgres.ListRecords` as the handler distinguishes them:
the wrapped `decodeCursor` failure carries the substring
"invalid cursor" that `handleListRecords` tests for. -/
inductive ListErr where
  | invalidCursor
  | other
deriving DecidableEq, Repr

/-- The WHERE clause of `postgres.ListRecords` for one row. -/
def pgRowMatches (q : ListRecordsQuery) (cur : Option (Int × String)) (r : Record) : Bool :=
  r.did = q.did &&
  (q.collection = "" || r.collection = q.collection) &&
  (match q.since with | none => true | some s => s ≤ r.indexedAt) &&
  (match q.until_ with | none => true | some u => r.indexedAt ≤ u) &&
  (match cur with
   | none => true
   | some (lastIndexedAt, lastRKey) => afterCursor lastIndexedAt lastRKey r)

/-- `postgres.ListRecords` after cursor decoding: filter, order, fetch
`limit+1` rows, return the first `limit` and a cursor built from the
last returned row when the extra row existed. -/
def pgListCore (st : PgStore) (q : ListRecordsQuery) (cur : Option (Int × String)) :
    ListRecordsResult :=
  let limit := clampLimit q.limit
  let fetched := (sortRecords (st.records.filter (pgRowMatches q cur))).take (limit + 1)
  let page := fetched.take limit
  let nextCursor :=
    if limit < fetched.length ∧ page ≠ [] then
      match page.getLast? with
      | some last => some (encodePgCursor last.indexedAt last.rkey)
      | none => none
    else none
  { records := page, nextCursor := nextCursor }

/-- `postgres.ListRecords`: a non-empty cursor that fails to decode is a
hard "invalid cursor" error; otherwise the filtered page is returned. -/
def pgListRecords (st : PgStore) (q : ListRecordsQuery) :
    Except ListErr ListRecordsResult :=
  if q.cursor ≠ "" then
    match decodePgCursor q.cursor with
    | none => .error .invalidCursor
    | some cur => .ok (pgListCore st q (some cur))
  else .ok (pgListCore st q none)

/-- `postgres.CreateMediaAsset`. -/
def pgCreateMediaAsset (st : PgStore) (a : MediaAsset) : Except StoreErr PgStore :=
  if ¬ st.accounts.contains a.did then .error .other
  else if st.mediaAssets.any (fun x => x.assetId == a.assetId || x.uri == a.uri) then
    .error .conflict
  else .ok { st with mediaAssets := st.mediaAssets ++ [a] }

/-- `postgres.GetMediaAsset`. -/
def pgGetMediaAsset (st : PgStore) (assetId : String) : Option MediaAsset :=
  st.mediaAssets.find? (fun x => x.assetId == assetId)

/-- `postgres.UpdateMediaAsset` (`UPDATE ... WHERE asset_id`;
zero rows affected → `ErrNotFound`). -/
def pgUpdateMediaAsset (st : PgStore) (a : MediaAsset) : Except StoreErr PgStore :=
  if st.mediaAssets.any (fun x => x.assetId == a.assetId) then
    .ok { st with mediaAssets :=
      st.mediaAssets.map (fun x => if x.assetId == a.assetId then a else x) }
  else .error .notFound

/-- `postgres.StoreIdempotentResponse`: first SELECT for a row with the
same `key_hash` but a different `request_hash` (no expiry condition!) —
found → `ErrConflict`; otherwise INSERT ... ON CONFLICT (key_hash,
request_hash) DO UPDATE (an upsert refreshing body, status, created_at
and expires_at). -/
def pgStoreIdempotentResponse (st : PgStore) (now : Int) (keyHash requestHash : String)
    (responseBody : String) (statusCode : Nat) (expiresAt : Int) :
    Except StoreErr PgStore :=
  if st.idempotency.any (fun x => x.keyHash == keyHash && x.requestHash != requestHash) then
    .error .conflict
  else
    let row : PgIdemRow :=
      { keyHash := keyHash, requestHash := requestHash, responseBody := responseBody,
        responseStatus := statusCode, createdAt := now, expiresAt := expiresAt }
    if st.idempotency.any (fun x => x.keyHash == keyHash && x.requestHash == requestHash) then
      .ok { st with idempotency :=
        st.idempotency.map (fun x =>
          if x.keyHash == keyHash && x.requestHash == requestHash then row else x) }
    else .ok { st with idempotency := st.idempotency ++ [row] }

/-- `postgres.GetIdempotentResponse`: any row with the key hash and
`expires_at > now` (the composite primary key admits at most one row per
key hash while `StoreIdempotentResponse` guards conflicts). -/
def pgGetIdempotentResponse (st : PgStore) (now : Int) (keyHash : String) :
    Option (String × Nat) :=
  (st.idempotency.find? (fun x => x.keyHash == keyHash && decide (now < x.expiresAt))).map
    (fun x => (x.responseBody, x.responseStatus))

/-! ULID minting.  `handleCreateRecord` runs, per request,
`entropy := ulid.Monotonic(rand.Reader, 0)` followed by
`ulid.MustNew(ulid.Timestamp(time.Now()), entropy).String()`.
A ULID string is the Crockford base32 rendering (26 characters) of the
128-bit value `time48 · 2^80 + entropy80`.  Because the monotonic
entropy source is freshly constructed for every request, its first (and
only) read is plain random bytes: the entropy of consecutive requests is
independent, and only calls against one shared source are ordered. -/

/-- The Crockford base32 alphabet used by ULID. -/
def crockfordChars : List Char := "0123456789ABCDEFGHJKMNPQRSTVWXYZ".toList

/-- Big-endian base-32 digits, fixed width `k`. -/
def b32digits : Nat → Nat → List Nat
  | 0, _ => []
  | k + 1, v => b32digits k (v / 32) ++ [v % 32]

/-- The 26-character ULID string of a 48-bit millisecond timestamp and
80 bits of entropy. -/
def ulidString (time48 entropy80 : Nat) : String :=
  String.mk ((b32digits 26 ((time48 % 2 ^ 48) * 2 ^ 80 + entropy80 % 2 ^ 80)).map
    (fun d => crockfordChars.getD d '0'))

/-! The write coordinator (internal/server/mux.go).  Handlers are
embedded as pure functions over a storage interface, an environment of
request-scoped inputs (authenticated subject, clock, freshly minted
identifiers, collaborator outcomes) and the store state.  Event
publication is captured as a list of published events; `slog.Warn`
calls are captured as a list of warning tags. -/

/-- The `storage.Store` operations the handlers consume, over an
abstract backend state `σ`.  (`GetAccount` and the getters surface only
the outcomes the handlers can observe.) -/
structure StoreOps (σ : Type) where
  getAccount : σ → String → Bool
  createAccount : σ → String → Except StoreErr σ
  createRecord : σ → Record → Except StoreErr σ
  createMediaAsset : σ → MediaAsset → Except StoreErr σ
  getMediaAsset : σ → String → Option MediaAsset
  updateMediaAsset : σ → MediaAsset → Except StoreErr σ
  getIdempotent : σ → Int → String → Option (String × Nat)
  storeIdempotent : σ → Int → String → String → String → Nat → Int → Except StoreErr σ

/-- The in-memory backend as a `StoreOps` bundle.  Its
`StoreIdempotentResponse` takes no request hash, so the hash argument of
the interface call is discarded here. -/
def memOps : StoreOps MemoryStore :=
  { getAccount := memGetAccount
    createAccount := memCreateAccount
    createRecord := memCreateRecord
    createMediaAsset := memCreateMediaAsset
    getMediaAsset := memGetMediaAsset
    updateMediaAsset := memUpdateMediaAsset
    getIdempotent := memGetIdempotentResponse
    storeIdempotent := fun st _now keyHash _requestHash body status expiresAt =>
      memStoreIdempotentResponse st keyHash body status expiresAt }

/-- The relational backend as a `StoreOps` bundle. -/
def pgOps : StoreOps PgStore :=
  { getAccount := pgGetAccount
    createAccount := pgCreateAccount
    createRecord := pgCreateRecord
    createMediaAsset := pgCreateMediaAsset
    getMediaAsset := pgGetMediaAsset
    updateMediaAsset := pgUpdateMediaAsset
    getIdempotent := pgGetIdempotentResponse
    storeIdempotent := pgStoreIdempotentResponse }

/-- `model.CreateRecordRequest` after JSON decoding (`record = none`
models a nil `Record` map; empty strings model absent string fields). -/
structure CreateRecordRequest where
  collection : String
  did : String
  record : Option String
  createdAt : Option Int
  idempotencyKey : String
deriving DecidableEq, Repr

/-- Request-scoped inputs of `handleCreateRecord`: the authenticated
subject and correlation id from the middleware, the collaborator
outcomes (validator, resolver, publisher), the clock, and the
identifiers minted inside the handler.  `ulidEntropy` is the first read
of the per-request `ulid.Monotonic(rand.Reader, 0)` source.
`rejectDeprecatedSchemas` is the `Mux` configuration field of the same
name; the handler body never consults it. -/
structure CreateEnv where
  jwtDID : String
  correlationId : String
  validate : String → String → Except String String
  resolveSchemaVersion : String → Except String String
  rejectDeprecatedSchemas : Bool
  recordId : String
  ulidTimeMs : Nat
  ulidEntropy : Nat
  cid : String
  now : Int
  publishFails : Bool

/-- The record minted by `handleCreateRecord`: a fresh UUID id, the
ULID record key from the per-request entropy source, the derived
`at://did/collection/rkey` URI, the UUID stand-in for the CID, the
client-supplied `createdAt` (server time when absent) and the resolved
schema version. -/
def mintRecord (env : CreateEnv) (req : CreateRecordRequest) (schemaVersion : String) :
    Record :=
  { id := env.recordId
    did := req.did
    collection := req.collection
    rkey := ulidString env.ulidTimeMs env.ulidEntropy
    uri := "at://" ++ req.did ++ "/" ++ req.collection ++ "/" ++
      ulidString env.ulidTimeMs env.ulidEntropy
    cid := env.cid
    value := (req.record).getD ""
    indexedAt := (req.createdAt).getD env.now
    schemaVersion := schemaVersion }

/-- The marshalled success envelope for a minted record — both the
bytes cached by the idempotency store and (plus newline) the live
response body. -/
def createResponseBody (r : Record) : String :=
  marshalCreateData r.uri r.cid r.indexedAt

/-- Outcome of one handler run: HTTP status, response body bytes, the
error code (none on success or replay), the final store state, the
events that reached the stream, and the warnings logged. -/
structure HandlerResult (σ : Type) where
  status : Nat
  body : String
  code : Option ErrCode
  store : σ
  events : List (String × Record)
  warnings : List String

/-- `writeErrorDef` outcome with no prior side effects. -/
def errorResult {σ : Type} (st : σ) (code : ErrCode) (message correlationId : String) :
    HandlerResult σ :=
  { status := httpStatusCodeForCode code
    body := encoderWrite (marshalErrorEnvelope code.codeString message correlationId)
    code := some code
    store := st
    events := []
    warnings := [] }

/-- 24 hours in nanoseconds (the idempotency TTL). -/
def hours24 : Int := 24 * 3600 * 1000000000

/-- The idempotency row a successful keyed create stores on the
relational backend (key hash, canonical request hash, marshalled
response, status 200, 24-hour expiry). -/
def idemRowOf (env : CreateEnv) (req : CreateRecordRequest) (r : Record) : PgIdemRow :=
  { keyHash := sha256Hex req.idempotencyKey
    requestHash := sha256Hex (marshalCreateRecordRequest req.collection req.did
      req.record req.createdAt req.idempotencyKey)
    responseBody := createResponseBody r
    responseStatus := 200
    createdAt := env.now
    expiresAt := env.now + hours24 }

/-- `handleCreateRecord` (mux.go) after the auth middleware: decode,
required fields, DID binding, idempotency probe with verbatim replay,
schema validation, version resolution (deprecated versions are accepted
with a warning), lazy account creation, ULID minting, persistence,
post-commit publication, idempotency store with payload-conflict
detection, success response. -/
def handleCreateRecord {σ : Type} (ops : StoreOps σ) (env : CreateEnv) (st : σ)
    (reqOpt : Option CreateRecordRequest) : HandlerResult σ :=
  match reqOpt with
  | none => errorResult st .validation "invalid JSON" env.correlationId
  | some req =>
    if req.collection = "" ∨ req.did = "" ∨ req.record = none then
      errorResult st .validation "collection, did, and record are required" env.correlationId
    else if req.did ≠ env.jwtDID then
      errorResult st .didMismatch "DID must match JWT subject" env.correlationId
    else
      match (if req.idempotencyKey ≠ "" then
          ops.getIdempotent st env.now (sha256Hex req.idempotencyKey) else none) with
      | some (responseBody, statusCode) =>
        -- cache hit: replay the stored body and status verbatim (raw w.Write)
        { status := statusCode, body := responseBody, code := none,
          store := st, events := [], warnings := [] }
      | none =>
        match env.validate req.collection ((req.record).getD "") with
        | .error msg =>
          errorResult st .schemaReject ("schema validation failed: " ++ msg) env.correlationId
        | .ok validatedVersion =>
          let (schemaVersion, resolveWarnings) :=
            match env.resolveSchemaVersion req.collection with
            | .error _ => (validatedVersion, ["failed to resolve schema version"])
            | .ok resolved =>
              if strEndsWith resolved ":deprecated" then
                (resolved.dropRight ":deprecated".length, ["using deprecated schema version"])
              else (resolved, [])
          let afterAccount : Except (HandlerResult σ) σ :=
            if ops.getAccount st req.did then .ok st
            else match ops.createAccount st req.did with
              | .ok st1 => .ok st1
              | .error _ =>
                .error (errorResult st .internal "failed to create account" env.correlationId)
          match afterAccount with
          | .error r => r
          | .ok st1 =>
            let record := mintRecord env req schemaVersion
            match ops.createRecord st1 record with
            | .error .conflict =>
              { errorResult st1 .conflict "record already exists" env.correlationId with
                warnings := resolveWarnings }
            | .error _ =>
              { errorResult st1 .internal "failed to create record" env.correlationId with
                warnings := resolveWarnings }
            | .ok st2 =>
              let events := if env.publishFails then [] else [(req.collection, record)]
              let publishWarnings :=
                if env.publishFails then ["failed to publish record created event"] else []
              let responseBody := createResponseBody record
              let afterIdem : Except (HandlerResult σ) (σ × List String) :=
                if req.idempotencyKey ≠ "" then
                  let keyHash := sha256Hex req.idempotencyKey
                  let requestHash := sha256Hex (marshalCreateRecordRequest
                    req.collection req.did req.record req.createdAt req.idempotencyKey)
                  match ops.storeIdempotent st2 env.now keyHash requestHash
                      responseBody 200 (env.now + hours24) with
                  | .error .conflict =>
                    .error { errorResult st2 .conflict
                        "idempotency key conflict: different payload for same key"
                        env.correlationId with
                      events := events, warnings := resolveWarnings ++ publishWarnings }
                  | .error _ => .ok (st2, ["failed to store idempotent response"])
                  | .ok st3 => .ok (st3, [])
                else .ok (st2, [])
              match afterIdem with
              | .error r => r
              | .ok (st3, idemWarnings) =>
                { status := 200, body := encoderWrite responseBody, code := none,
                  store := st3, events := events,
                  warnings := resolveWarnings ++ publishWarnings ++ idemWarnings }

/-! The object-store adapter (internal/media/s3.go).  The S3 service is
modelled as a key→content map plus a transport-failure flag; object
sizes are content lengths. -/

/-- The observable state of the S3-compatible object store. -/
structure S3World where
  transportFail : Bool
  objects : List (String × String)
deriving DecidableEq, Repr

/-- `HeadObject`: the declared content length, or an error when the
transport fails or the key does not exist (`NoSuchKey`). -/
def headObject (w : S3World) (key : String) : Except Unit Int :=
  if w.transportFail then .error ()
  else match w.objects.find? (fun x => x.1 == key) with
    | some (_, content) => .ok (content.length : Int)
    | none => .error ()

/-- `GetObject`: the content, or an error when the transport fails or
the key does not exist. -/
def getObject (w : S3World) (key : String) : Except Unit String :=
  if w.transportFail then .error ()
  else match w.objects.find? (fun x => x.1 == key) with
    | some (_, content) => .ok content
    | none => .error ()

/-- `S3Client.VerifyObject`: HEAD for existence and size, GET and hash
the body, compare digests.  Every HEAD or GET failure — a missing key
included — is wrapped and returned as an error; a digest mismatch is the
`(false, size)` return. -/
def VerifyObject (w : S3World) (key expectedChecksum : String) :
    Except Unit (Bool × Int) :=
  match headObject w key with
  | .error _ => .error ()
  | .ok size =>
    match getObject w key with
    | .error _ => .error ()
    | .ok content => .ok (sha256Hex content = expectedChecksum, size)

/-! Media handlers (mux.go). -/

/-- `model.UploadInitRequest` after JSON decoding. -/
structure UploadInitRequest where
  did : String
  mimeType : String
  size : Int
  sha256 : String
  filename : String
deriving DecidableEq, Repr

/-- Request-scoped inputs of `handleUploadInit`: the subject and
correlation id, the limits configured on the `Mux`, the ambient
environment variables the handler reads (`CDV_ENV`, `CDV_S3_BUCKET`),
the minted asset id, the clock, and the presign outcome (`none` when
the S3 client is not configured). -/
structure UploadEnv where
  jwtDID : String
  correlationId : String
  maxMediaSize : Int
  allowedMimeTypes : List String
  envName : String
  bucket : String
  assetId : String
  now : Int
  mediaConfigured : Bool
  presign : String → Except Unit String

/-- Result of `handleUploadInit`; `localAssetUri` records the value the
handler assigns to its local `asset.URI` copy after persisting — the
assignment the source never writes back to storage. -/
structure UploadInitResult (σ : Type) where
  status : Nat
  code : Option ErrCode
  store : σ
  responseAssetId : String
  uploadURL : String
  localAssetUri : String

/-- `handleUploadInit` (mux.go): validation, size and MIME limits, DID
binding, lazy account creation, asset persistence with
`uri = at://did/media/assetId`, object-key composition
`env/did/assetId[/filename]`, presigned URL, and the post-persistence
local reassignment `asset.URI = s3://bucket/objectKey` (never stored). -/
def handleUploadInit {σ : Type} (ops : StoreOps σ) (env : UploadEnv) (st : σ)
    (reqOpt : Option UploadInitRequest) : UploadInitResult σ :=
  let errRes := fun (st : σ) (code : ErrCode) =>
    ({ status := httpStatusCodeForCode code, code := some code, store := st,
       responseAssetId := "", uploadURL := "", localAssetUri := "" } : UploadInitResult σ)
  match reqOpt with
  | none => errRes st .validation
  | some req =>
    if req.did = "" ∨ req.mimeType = "" ∨ req.size ≤ 0 then errRes st .validation
    else if req.size > env.maxMediaSize then errRes st .mediaSize
    else if ¬ env.allowedMimeTypes.contains req.mimeType then errRes st .mediaType
    else if req.did ≠ env.jwtDID then errRes st .didMismatch
    else
      let afterAccount : Except (UploadInitResult σ) σ :=
        if ops.getAccount st req.did then .ok st
        else match ops.createAccount st req.did with
          | .ok st1 => .ok st1
          | .error _ => .error (errRes st .internal)
      match afterAccount with
      | .error r => r
      | .ok st1 =>
        let uri := "at://" ++ req.did ++ "/media/" ++ env.assetId
        let asset : MediaAsset :=
          { assetId := env.assetId, did := req.did, uri := uri,
            mimeType := req.mimeType, size := req.size, checksum := req.sha256,
            createdAt := env.now }
        match ops.createMediaAsset st1 asset with
        | .error .conflict => errRes st1 .conflict
        | .error _ => errRes st1 .internal
        | .ok st2 =>
          let objectKey := env.envName ++ "/" ++ req.did ++ "/" ++ env.assetId ++
            (if req.filename ≠ "" then "/" ++ req.filename else "")
          let uploadAttempt : Except (UploadInitResult σ) String :=
            if env.mediaConfigured then
              match env.presign objectKey with
              | .ok url => .ok url
              | .error _ => .error (errRes st2 .internal)
            else .ok ("http://localhost:8081/upload/" ++ env.assetId)
          match uploadAttempt with
          | .error r => r
          | .ok uploadURL =>
            -- `asset.URI = fmt.Sprintf("s3://%s/%s", bucket, objectKey)`:
            -- a write to the handler's local copy, after CreateMediaAsset
            { status := 200, code := none, store := st2,
              responseAssetId := env.assetId, uploadURL := uploadURL,
              localAssetUri := "s3://" ++ env.bucket ++ "/" ++ objectKey }

/-- `model.FinalizeRequest` after JSON decoding. -/
structure FinalizeRequest where
  assetId : String
  sha256 : String
deriving DecidableEq, Repr

/-- Request-scoped inputs of `handleFinalize`. -/
structure FinalizeEnv where
  jwtDID : String
  correlationId : String
  bucket : String
  mediaConfigured : Bool
  s3 : S3World
  publishFails : Bool

/-- Result of `handleFinalize`: status, error code, final store, the
asset returned on success, and the media-finalized events published. -/
structure FinalizeResult (σ : Type) where
  status : Nat
  code : Option ErrCode
  store : σ
  responseAsset : Option MediaAsset
  events : List MediaAsset

/-- `handleFinalize` (mux.go): validation, asset lookup, DID binding;
when the S3 client is configured the object key is derived by trimming
`s3://bucket/` off the stored URI and `VerifyObject` is consulted — an
error becomes INTERNAL, a digest mismatch becomes MEDIA_CHECKSUM before
any field of the asset is touched, and on success the measured size is
adopted; then the checksum is installed, the asset updated, and the
event published. -/
def handleFinalize {σ : Type} (ops : StoreOps σ) (env : FinalizeEnv) (st : σ)
    (reqOpt : Option FinalizeRequest) : FinalizeResult σ :=
  let errRes := fun (st : σ) (code : ErrCode) =>
    ({ status := httpStatusCodeForCode code, code := some code, store := st,
       responseAsset := none, events := [] } : FinalizeResult σ)
  match reqOpt with
  | none => errRes st .validation
  | some req =>
    if req.assetId = "" ∨ req.sha256 = "" then errRes st .validation
    else
      match ops.getMediaAsset st req.assetId with
      | none => errRes st .notFound
      | some asset0 =>
        if asset0.did ≠ env.jwtDID then errRes st .didMismatch
        else
          let verified : Except (FinalizeResult σ) MediaAsset :=
            if env.mediaConfigured then
              let objectKey := trimPfx asset0.uri ("s3://" ++ env.bucket ++ "/")
              match VerifyObject env.s3 objectKey req.sha256 with
              | .error _ => .error (errRes st .internal)
              | .ok (valid, size) =>
                if ¬ valid then .error (errRes st .mediaChecksum)
                else .ok { asset0 with size := size }
            else .ok asset0
          match verified with
          | .error r => r
          | .ok asset1 =>
            let asset2 := { asset1 with checksum := req.sha256 }
            match ops.updateMediaAsset st asset2 with
            | .error _ => errRes st .internal
            | .ok st1 =>
              { status := 200, code := none, store := st1,
                responseAsset := some asset2,
                events := if env.publishFails then [] else [asset2] }

/-! The read coordinator (`handleListRecords` in mux.go). -/

/-- Outcome of `handleListRecords`. -/
structure ListHandlerResult where
  status : Nat
  code : Option ErrCode
  result : Option ListRecordsResult
deriving DecidableEq, Repr

/-- `handleListRecords` over a storage backend (its `ListRecords`
function): `did` is required; a storage error whose message contains
"invalid cursor" (exactly the wrapped `decodeCursor` failure) becomes
CURSOR_INVALID, any other storage error becomes INTERNAL, otherwise the
page is returned with status 200. -/
def handleListRecords (listFn : ListRecordsQuery → Except ListErr ListRecordsResult)
    (q : ListRecordsQuery) : ListHandlerResult :=
  if q.did = "" then { status := 400, code := some .validation, result := none }
  else
    match listFn q with
    | .error .invalidCursor => { status := 400, code := some .cursorInvalid, result := none }
    | .error .other => { status := 500, code := some .internal, result := none }
    | .ok res => { status := 200, code := none, result := some res }

/-- The in-memory backend's `ListRecords` in the interface shape: it
always returns a page and `nil` error (a cursor that fails to decode is
ignored inside `memListRecords`). -/
def memListBackend (st : MemoryStore) (q : ListRecordsQuery) :
    Except ListErr ListRecordsResult :=
  .ok (memListRecords st q)

/-! Concrete fixtures used to evaluate the embedded handlers at
specific inputs (frozen datasets, request payloads, request-scoped
environments). -/

/-- Pagination fixture: newest of three posts of one author. -/
def recPageA : Record :=
  { id := "r-1", did := "did:ra:alice", collection := "com.registryaccord.feed.post",
    rkey := "01A", uri := "at://did:ra:alice/com.registryaccord.feed.post/01A",
    cid := "c-1", value := "p1", indexedAt := 3, schemaVersion := "1.0.0" }

/-- Pagination fixture: middle record. -/
def recPageB : Record :=
  { recPageA with
    id := "r-2"
    rkey := "01B"
    uri := "at://did:ra:alice/com.registryaccord.feed.post/01B"
    indexedAt := 2 }

/-- Pagination fixture: oldest record. -/
def recPageC : Record :=
  { recPageA with
    id := "r-3"
    rkey := "01C"
    uri := "at://did:ra:alice/com.registryaccord.feed.post/01C"
    indexedAt := 1 }

/-- The frozen three-record dataset on the in-memory backend. -/
def memStorePage : MemoryStore :=
  { accounts := ["did:ra:alice"], records := [recPageA, recPageB, recPageC],
    mediaAssets := [], idempotency := [] }

/-- The same frozen dataset on the relational backend. -/
def pgStorePage : PgStore :=
  { accounts := ["did:ra:alice"], records := [recPageA, recPageB, recPageC],
    mediaAssets := [], idempotency := [] }

/-- First-page query over the dataset (limit 1, no cursor). -/
def qPage1 : ListRecordsQuery :=
  { did := "did:ra:alice", collection := "com.registryaccord.feed.post",
    limit := 1, cursor := "", since := none, until_ := none }

/-- Second-page query: the cursor the in-memory backend emitted for the
first page (`encodeMemoryCursor 3 "01A"`). -/
def qPage2 : ListRecordsQuery := { qPage1 with cursor := "curM:3:01A" }

/-- A query carrying a cursor that decodes on neither backend
(`"!!!"` is not valid base64url). -/
def qBadCursor : ListRecordsQuery := { qPage1 with cursor := "!!!" }

/-- Record-create environment fixture: authenticated alice, validator
and resolver both yielding version 1.0.0, fixed minted identifiers. -/
def envCreateA : CreateEnv :=
  { jwtDID := "did:ra:alice", correlationId := "corr-1",
    validate := fun _ _ => Except.ok "1.0.0",
    resolveSchemaVersion := fun _ => Except.ok "1.0.0",
    rejectDeprecatedSchemas := false, recordId := "uuid-1",
    ulidTimeMs := 1, ulidEntropy := 5, cid := "cid-1", now := 1000,
    publishFails := false }

/-- The environment of a second request one microsecond later (fresh
UUIDs, fresh per-request entropy, same process). -/
def envCreateB : CreateEnv :=
  { envCreateA with recordId := "uuid-2", ulidEntropy := 6, cid := "cid-2", now := 2000 }

/-- Idempotent create request: payload A under key "k1". -/
def reqIdemA : CreateRecordRequest :=
  { collection := "com.registryaccord.feed.post", did := "did:ra:alice",
    record := some "\"A\"", createdAt := none, idempotencyKey := "k1" }

/-- The conflicting request: a different payload under the same key. -/
def reqIdemB : CreateRecordRequest := { reqIdemA with record := some "\"B\"" }

/-- A create request without an idempotency key. -/
def reqPlain : CreateRecordRequest := { reqIdemA with idempotencyKey := "" }

/-- Environment of the first same-millisecond request (fresh
`ulid.Monotonic` source whose first read happened to be 1). -/
def envUlid1 : CreateEnv :=
  { envCreateA with recordId := "uuid-3", ulidTimeMs := 7, ulidEntropy := 1, cid := "cid-3" }

/-- Environment of the immediately following request in the same
millisecond (its own fresh `ulid.Monotonic` source read 0). -/
def envUlid2 : CreateEnv :=
  { envCreateA with recordId := "uuid-4", ulidTimeMs := 7, ulidEntropy := 0, cid := "cid-4" }

/-- Environment whose resolver reports the collection's version as
deprecated while the Mux is configured to reject deprecated schemas. -/
def envDeprecated : CreateEnv :=
  { envCreateA with
    resolveSchemaVersion := fun _ => Except.ok "1.0.0:deprecated"
    rejectDeprecatedSchemas := true }

/-- Upload-init environment fixture: alice, default limits, dev
environment, configured object store. -/
def envUpload : UploadEnv :=
  { jwtDID := "did:ra:alice", correlationId := "corr-8", maxMediaSize := 10485760,
    allowedMimeTypes := ["image/jpeg", "image/png", "image/gif", "video/mp4"],
    envName := "dev", bucket := "media-bucket", assetId := "asset-1", now := 100,
    mediaConfigured := true,
    presign := fun key => Except.ok ("https://s3.example/" ++ key) }

/-- A 100-byte PNG upload-init request without filename. -/
def reqUpload : UploadInitRequest :=
  { did := "did:ra:alice", mimeType := "image/png", size := 100, sha256 := "", filename := "" }

/-- A provisional media asset as `uploadInit` would have stored it with
a correctly persisted `s3://` URI (the finalize fixtures). -/
def assetFix : MediaAsset :=
  { assetId := "asset-1", did := "did:ra:alice",
    uri := "s3://media-bucket/dev/did:ra:alice/asset-1",
    mimeType := "image/png", size := 100, checksum := "", createdAt := 100 }

/-- In-memory store holding `assetFix`. -/
def memStoreAsset : MemoryStore :=
  { accounts := ["did:ra:alice"], records := [], mediaAssets := [("asset-1", assetFix)],
    idempotency := [] }

/-- Finalize environment over an object store that does NOT hold the
referenced object (and has no transport fault). -/
def envFinalizeMissing : FinalizeEnv :=
  { jwtDID := "did:ra:alice", correlationId := "corr-6", bucket := "media-bucket",
    mediaConfigured := true, s3 := { transportFail := false, objects := [] },
    publishFails := false }

/-- Finalize environment over an object store holding the uploaded
bytes (content "PNGDATA") under the asset's object key. -/
def envFinalizeStored : FinalizeEnv :=
  { envFinalizeMissing with
    s3 := { transportFail := false, objects := [("dev/did:ra:alice/asset-1", "PNGDATA")] } }

/-- Finalize request claiming the digest of the stored content. -/
def reqFinalizeGood : FinalizeRequest :=
  { assetId := "asset-1", sha256 := sha256Hex "PNGDATA" }

/-- Finalize request claiming a digest that cannot match. -/
def reqFinalizeBad : FinalizeRequest := { assetId := "asset-1", sha256 := "0000" }

/-- Relational store holding only alice's account. -/
def pgStoreAlice : PgStore :=
  { accounts := ["did:ra:alice"], records := [], mediaAssets := [], idempotency := [] }

/-- Relational store whose idempotency table holds an EXPIRED entry for
key "k1" recorded under a different request hash: the probe misses it,
but the store step's conflict check (which ignores expiry) sees it. -/
def pgStoreStale : PgStore :=
  { accounts := ["did:ra:alice"], records := [], mediaAssets := [],
    idempotency := [{ keyHash := sha256Hex "k1", requestHash := "sha256:other",
                      responseBody := "old", responseStatus := 200,
                      createdAt := 0, expiresAt := 500 }] }


/-! Theorems.  First general lemmas about the embedded write
coordinator, then one theorem (with witness or counterexample) per
specification claim. -/

/-- A probe hit replays the cached response verbatim and touches
nothing: for any backend, when the request passes decoding, the field
checks and the DID binding, carries an idempotency key, and
`GetIdempotent` returns a cached entry, the handler returns exactly the
stored status and body with no store writes, no events and no logs. -/
theorem handleCreateRecord_replay {σ : Type} (ops : StoreOps σ) (env : CreateEnv)
    (st : σ) (req : CreateRecordRequest) (body : String) (status : Nat)
    (hfields : ¬(req.collection = "" ∨ req.did = "" ∨ req.record = none))
    (hdid : req.did = env.jwtDID)
    (hkey : req.idempotencyKey ≠ "")
    (hprobe : ops.getIdempotent st env.now (sha256Hex req.idempotencyKey) = some (body, status)) :
    handleCreateRecord ops env st (some req) =
      { status := status, body := body, code := none, store := st, events := [],
        warnings := [] } := by
  have hf := hfields
  simp only [hdid] at hf
  simp [handleCreateRecord, hf, hdid, hkey, hprobe]

/-- The success run of a keyed create on the relational backend: under
a probe miss, successful validation, a resolver answer that is not
deprecated, an existing account, no unique-key conflict and no
idempotency-table entry under the key, the handler persists exactly the
minted record, publishes exactly one event, stores the idempotency row
and answers 200 with the encoder-written body. -/
theorem handleCreateRecord_pg_success (env : CreateEnv) (st : PgStore)
    (req : CreateRecordRequest) (ver : String)
    (hfields : ¬(req.collection = "" ∨ req.did = "" ∨ req.record = none))
    (hdid : req.did = env.jwtDID)
    (hkey : req.idempotencyKey ≠ "")
    (hprobe : pgGetIdempotentResponse st env.now (sha256Hex req.idempotencyKey) = none)
    (hval : env.validate req.collection ((req.record).getD "") = .ok ver)
    (hres : env.resolveSchemaVersion req.collection = .ok ver)
    (hdep : strEndsWith ver ":deprecated" = false)
    (hacct : st.accounts.contains req.did = true)
    (hnoconf : (st.records.any (fun x => x.uri == (mintRecord env req ver).uri ||
        x.id == (mintRecord env req ver).id ||
        (x.did == (mintRecord env req ver).did &&
         x.collection == (mintRecord env req ver).collection &&
         x.rkey == (mintRecord env req ver).rkey))) = false)
    (hpub : env.publishFails = false)
    (hconf1 : (st.idempotency.any (fun x => x.keyHash == sha256Hex req.idempotencyKey &&
        x.requestHash != (idemRowOf env req (mintRecord env req ver)).requestHash)) = false)
    (hconf2 : (st.idempotency.any (fun x => x.keyHash == sha256Hex req.idempotencyKey &&
        x.requestHash == (idemRowOf env req (mintRecord env req ver)).requestHash)) = false) :
    handleCreateRecord pgOps env st (some req) =
      { status := 200
        body := encoderWrite (createResponseBody (mintRecord env req ver))
        code := none
        store := { st with
          records := st.records ++ [mintRecord env req ver]
          idempotency := st.idempotency ++ [idemRowOf env req (mintRecord env req ver)] }
        events := [(req.collection, mintRecord env req ver)]
        warnings := [] } := by
  simp only [handleCreateRecord]
  rw [if_neg hfields]
  rw [if_neg (not_not_intro hdid)]
  rw [if_pos hkey]
  simp only [pgOps]
  simp only [hprobe, hval, hres]
  rw [hdep]
  simp only [Bool.false_eq_true, if_false]
  rw [if_pos (show pgGetAccount st req.did = true from hacct)]
  simp only [pgCreateRecord, mintRecord, idemRowOf, createResponseBody] at hnoconf hconf1 hconf2 ⊢
  rw [if_neg (not_not_intro hacct)]
  rw [hnoconf]
  simp only [Bool.false_eq_true, if_false]
  rw [if_pos hkey]
  simp only [pgStoreIdempotentResponse]
  rw [hconf1]
  simp only [Bool.false_eq_true, if_false]
  rw [hconf2]
  simp only [Bool.false_eq_true, if_false]
  rw [hpub]
  simp only [Bool.false_eq_true, if_false]
  rfl

/-- The idempotency-store CONFLICT run on the relational backend: same
success-path hypotheses, but the idempotency table already holds an
entry with the same key hash and a DIFFERENT request hash.  The handler
answers 409 CONFLICT — yet the minted record is already persisted and
the event already published. -/
theorem handleCreateRecord_pg_idem_conflict (env : CreateEnv) (st : PgStore)
    (req : CreateRecordRequest) (ver : String)
    (hfields : ¬(req.collection = "" ∨ req.did = "" ∨ req.record = none))
    (hdid : req.did = env.jwtDID)
    (hkey : req.idempotencyKey ≠ "")
    (hprobe : pgGetIdempotentResponse st env.now (sha256Hex req.idempotencyKey) = none)
    (hval : env.validate req.collection ((req.record).getD "") = .ok ver)
    (hres : env.resolveSchemaVersion req.collection = .ok ver)
    (hdep : strEndsWith ver ":deprecated" = false)
    (hacct : st.accounts.contains req.did = true)
    (hnoconf : (st.records.any (fun x => x.uri == (mintRecord env req ver).uri ||
        x.id == (mintRecord env req ver).id ||
        (x.did == (mintRecord env req ver).did &&
         x.collection == (mintRecord env req ver).collection &&
         x.rkey == (mintRecord env req ver).rkey))) = false)
    (hpub : env.publishFails = false)
    (hstale : (st.idempotency.any (fun x => x.keyHash == sha256Hex req.idempotencyKey &&
        x.requestHash != (idemRowOf env req (mintRecord env req ver)).requestHash)) = true) :
    handleCreateRecord pgOps env st (some req) =
      { status := 409
        body := encoderWrite (marshalErrorEnvelope "CDV_CONFLICT"
          "idempotency key conflict: different payload for same key" env.correlationId)
        code := some .conflict
        store := { st with records := st.records ++ [mintRecord env req ver] }
        events := [(req.collection, mintRecord env req ver)]
        warnings := [] } := by
  simp only [handleCreateRecord]
  rw [if_neg hfields]
  rw [if_neg (not_not_intro hdid)]
  rw [if_pos hkey]
  simp only [pgOps]
  simp only [hprobe, hval, hres]
  rw [hdep]
  simp only [Bool.false_eq_true, if_false]
  rw [if_pos (show pgGetAccount st req.did = true from hacct)]
  simp only [pgCreateRecord, mintRecord, idemRowOf, createResponseBody] at hnoconf hstale ⊢
  rw [if_neg (not_not_intro hacct)]
  rw [hnoconf]
  simp only [Bool.false_eq_true, if_false]
  rw [if_pos hkey]
  simp only [pgStoreIdempotentResponse]
  rw [if_pos hstale]
  rw [hpub]
  simp only [Bool.false_eq_true, if_false]
  rfl

/-- Claim C3: the spec says paging a frozen dataset to exhaustion
enumerates every (did, collection) record exactly once in
`indexed_at DESC, rkey ASC` order, identically on both backends.  The
in-memory backend violates this: on the frozen three-record dataset
with limit 1, the first page returns the newest record and its cursor,
but the second page skips the middle record entirely (the backend
starts one PAST the first row satisfying the cursor predicate), while
the relational backend returns the middle record at the same cursor.
The middle record is never enumerated. -/
theorem c3_memory_pagination_skips_record :
    (memListRecords memStorePage qPage1).records = [recPageA] ∧
    (memListRecords memStorePage qPage1).nextCursor = some "curM:3:01A" ∧
    (memListRecords memStorePage qPage2).records = [recPageC] ∧
    (memListRecords memStorePage qPage2).nextCursor = none ∧
    recPageB ∉ (memListRecords memStorePage qPage1).records ++
      (memListRecords memStorePage qPage2).records ∧
    (pgListRecords pgStorePage { qPage1 with cursor := "curP:3:01A" }).toOption =
      some { records := [recPageB], nextCursor := some "curP:2:01B" } := by
  decide

/-- Claim C4 counterexample: a cursor that decodes on neither backend
("!!!" is not base64url) is silently ignored by the in-memory backend —
the handler answers 200 with the first page instead of
CURSOR_INVALID/400, refuting the claim for that backend. -/
theorem c4_counterexample_memory_ignores_bad_cursor :
    (handleListRecords (memListBackend memStorePage) qBadCursor).status = 200 ∧
    (handleListRecords (memListBackend memStorePage) qBadCursor).code ≠
      some ErrCode.cursorInvalid ∧
    (handleListRecords (memListBackend memStorePage) qBadCursor).result =
      some { records := [recPageA], nextCursor := some "curM:3:01A" } := by
  decide

/-- Claim C4 (amended): a non-empty cursor that fails to decode yields
CURSOR_INVALID (HTTP 400) on the RELATIONAL backend only; the in-memory
backend silently ignores the undecodable cursor and serves the same
page it would serve with no cursor at all (HTTP 200). -/
theorem c4_amended_cursor_invalid (stp : PgStore) (stm : MemoryStore)
    (q : ListRecordsQuery) (hdid : q.did ≠ "") (hcur : q.cursor ≠ "")
    (hpg : decodePgCursor q.cursor = none) (hmem : decodeMemoryCursor q.cursor = none) :
    handleListRecords (pgListRecords stp) q =
      { status := 400, code := some .cursorInvalid, result := none } ∧
    (handleListRecords (memListBackend stm) q).status = 200 ∧
    (handleListRecords (memListBackend stm) q).code = none ∧
    memListRecords stm q = memListRecords stm { q with cursor := "" } := by
  refine ⟨?_, ?_, ?_, ?_⟩
  · simp [handleListRecords, pgListRecords, hdid, hcur, hpg]
  · simp [handleListRecords, memListBackend, hdid]
  · simp [handleListRecords, memListBackend, hdid]
  · simp [memListRecords, hcur, hmem]

/-- Witness for the amended C4 theorem at the concrete dataset and the
concrete cursor "!!!". -/
theorem c4_amended_cursor_invalid_witness :
    (qBadCursor.did ≠ "" ∧ qBadCursor.cursor ≠ "" ∧
     decodePgCursor qBadCursor.cursor = none ∧
     decodeMemoryCursor qBadCursor.cursor = none) ∧
    handleListRecords (pgListRecords pgStorePage) qBadCursor =
      { status := 400, code := some .cursorInvalid, result := none } ∧
    (handleListRecords (memListBackend memStorePage) qBadCursor).status = 200 ∧
    (handleListRecords (memListBackend memStorePage) qBadCursor).code = none ∧
    memListRecords memStorePage qBadCursor =
      memListRecords memStorePage { qBadCursor with cursor := "" } :=
  ⟨⟨by decide, by decide, by decide, by decide⟩,
    c4_amended_cursor_invalid pgStorePage memStorePage qBadCursor
      (by decide) (by decide) (by decide) (by decide)⟩

/-- Claim C5: the spec says a deprecated schema resolution must fail
with SCHEMA_REJECT when `reject_deprecated` is configured true.  The
handler never consults the flag: with the resolver reporting
"1.0.0:deprecated" and the flag set, the outcome is identical for both
flag values — the request is accepted (200) with the stripped version
"1.0.0" and only a warning is logged. -/
theorem c5_reject_deprecated_flag_never_consulted :
    (∀ flag : Bool,
      handleCreateRecord memOps { envDeprecated with rejectDeprecatedSchemas := flag }
        MemoryStore.empty (some reqPlain) =
      handleCreateRecord memOps envDeprecated MemoryStore.empty (some reqPlain)) ∧
    (handleCreateRecord memOps envDeprecated MemoryStore.empty (some reqPlain)).status
      = 200 ∧
    (handleCreateRecord memOps envDeprecated MemoryStore.empty (some reqPlain)).code ≠
      some ErrCode.schemaReject ∧
    ((handleCreateRecord memOps envDeprecated MemoryStore.empty
        (some reqPlain)).store.records.map Record.schemaVersion) = ["1.0.0"] ∧
    (handleCreateRecord memOps envDeprecated MemoryStore.empty (some reqPlain)).warnings
      = ["using deprecated schema version"] := by
  exact ⟨fun _ => rfl, by decide, by decide, by decide, by decide⟩

/-- Claim C8: the spec says the persisted MediaAsset URI equals
`s3://bucket/env/did/assetId`.  The handler persists the asset with URI
`at://did/media/assetId`; the `s3://` URI is assigned to a local copy
only AFTER `CreateMediaAsset` and never written back, so the stored row
keeps the `at://` form that finalize later trims. -/
theorem c8_uploadinit_persists_at_uri :
    (handleUploadInit memOps envUpload MemoryStore.empty (some reqUpload)).status = 200 ∧
    memGetMediaAsset
        (handleUploadInit memOps envUpload MemoryStore.empty (some reqUpload)).store
        "asset-1" =
      some { assetId := "asset-1", did := "did:ra:alice",
             uri := "at://did:ra:alice/media/asset-1", mimeType := "image/png",
             size := 100, checksum := "", createdAt := 100 } ∧
    (handleUploadInit memOps envUpload MemoryStore.empty
        (some reqUpload)).localAssetUri = "s3://media-bucket/dev/did:ra:alice/asset-1" ∧
    (memGetMediaAsset
        (handleUploadInit memOps envUpload MemoryStore.empty (some reqUpload)).store
        "asset-1").map MediaAsset.uri ≠
      some "s3://media-bucket/dev/did:ra:alice/asset-1" := by
  decide

/-- Claim C9: the spec says consecutive rkeys minted in the same
process and millisecond are strictly increasing.  The handler builds a
FRESH `ulid.Monotonic(rand.Reader, 0)` source per request, so the
entropy of the second request is independent random bytes: with first
read 1 then first read 0 (both reachable), the second rkey compares
strictly SMALLER than the first under Go string order (`stringLtb`). -/
theorem c9_same_millisecond_rkeys_not_monotonic :
    (handleCreateRecord memOps envUlid1 MemoryStore.empty (some reqPlain)).status = 200 ∧
    (handleCreateRecord memOps envUlid2
        (handleCreateRecord memOps envUlid1 MemoryStore.empty (some reqPlain)).store
        (some reqPlain)).status = 200 ∧
    ((handleCreateRecord memOps envUlid2
        (handleCreateRecord memOps envUlid1 MemoryStore.empty (some reqPlain)).store
        (some reqPlain)).store.records.map Record.rkey) =
      [ulidString 7 1, ulidString 7 0] ∧
    stringLtb (ulidString 7 0) (ulidString 7 1) = true := by
  decide

/-- Updating the asset map entry found under `id` makes the later
lookup return the updated asset (the `memUpdateMediaAsset` write seen
through `memGetMediaAsset`). -/
theorem find?_update_asset (l : List (String × MediaAsset)) (id : String)
    (a b : MediaAsset) (hfind : l.find? (fun x => x.1 == id) = some (id, a))
    (hb : b.assetId = id) :
    (l.map (fun x => if x.1 == b.assetId then (b.assetId, b) else x)).find?
        (fun x => x.1 == id) = some (b.assetId, b) := by
  induction l with
  | nil => simp at hfind
  | cons hd tl ih =>
    by_cases hk : hd.1 = id
    · simp only [List.map_cons]
      have hcond : (hd.1 == b.assetId) = true := by simp [hk, hb]
      rw [hcond]
      simp only [if_true]
      exact List.find?_cons_of_pos _ (by simp [hb])
    · simp only [List.map_cons]
      have hcond : (hd.1 == b.assetId) = false := by simp [hk, hb]
      rw [hcond]
      simp only [Bool.false_eq_true, if_false]
      rw [List.find?_cons_of_neg _ (by simp [hk])] at hfind
      rw [List.find?_cons_of_neg _ (by simp [hk])]
      exact ih hfind


/-- A `memGetMediaAsset` hit pins down the underlying map entry: the
found pair carries the looked-up id as key. -/
theorem memGetMediaAsset_find? (st : MemoryStore) (id : String) (a : MediaAsset)
    (h : memGetMediaAsset st id = some a) :
    st.mediaAssets.find? (fun x => x.1 == id) = some (id, a) := by
  unfold memGetMediaAsset at h
  cases hf : st.mediaAssets.find? (fun x => x.1 == id) with
  | none => rw [hf] at h; simp at h
  | some p =>
    rw [hf] at h
    have hp := List.find?_some hf
    cases p with
    | mk k v =>
      simp at h hp
      rw [hp, h]


/-- Claim C7: on an existing, owned asset with the adapter configured,
a failed checksum verification answers MEDIA_CHECKSUM with the store
completely unchanged, and a successful verification persists exactly
the client-supplied checksum and the measured size. -/
theorem c7_finalize_checksum_and_frame (env : FinalizeEnv) (st : MemoryStore)
    (req : FinalizeRequest) (a : MediaAsset)
    (hfields : ¬(req.assetId = "" ∨ req.sha256 = ""))
    (hget : memGetMediaAsset st req.assetId = some a)
    (hid : a.assetId = req.assetId)
    (hdid : a.did = env.jwtDID)
    (hconf : env.mediaConfigured = true)
    (hpub : env.publishFails = false) :
    (∀ sz : Int,
      VerifyObject env.s3 (trimPfx a.uri ("s3://" ++ env.bucket ++ "/")) req.sha256 =
        .ok (false, sz) →
      handleFinalize memOps env st (some req) =
        { status := 400, code := some .mediaChecksum, store := st,
          responseAsset := none, events := [] }) ∧
    (∀ sz : Int,
      VerifyObject env.s3 (trimPfx a.uri ("s3://" ++ env.bucket ++ "/")) req.sha256 =
        .ok (true, sz) →
      (handleFinalize memOps env st (some req)).status = 200 ∧
      memGetMediaAsset (handleFinalize memOps env st (some req)).store req.assetId =
        some { a with size := sz, checksum := req.sha256 } ∧
      (handleFinalize memOps env st (some req)).responseAsset =
        some { a with size := sz, checksum := req.sha256 } ∧
      (handleFinalize memOps env st (some req)).events =
        [{ a with size := sz, checksum := req.sha256 }]) := by
  have hfind := memGetMediaAsset_find? st req.assetId a hget
  constructor
  · intro sz hv
    simp only [handleFinalize, memOps]
    rw [if_neg hfields]
    rw [hget]
    simp only []
    rw [if_neg (not_not_intro hdid)]
    rw [hconf]
    simp only [if_true, hv]
    rfl
  · intro sz hv
    have hany : (st.mediaAssets.any fun x =>
        x.1 == ({ a with size := sz, checksum := req.sha256 } : MediaAsset).assetId) = true := by
      rw [List.any_eq_true]
      exact ⟨(req.assetId, a), List.mem_of_find?_eq_some hfind, by simp [hid]⟩
    have hupd := find?_update_asset st.mediaAssets req.assetId a
      { a with size := sz, checksum := req.sha256 } hfind (by simp [hid])
    simp only [handleFinalize, memOps]
    rw [if_neg hfields]
    rw [hget]
    simp only []
    rw [if_neg (not_not_intro hdid)]
    rw [hconf]
    simp only [if_true, hv]
    simp only [not_true, if_false]
    simp only [memUpdateMediaAsset]
    rw [hany]
    simp only [if_true, hpub]
    refine ⟨by trivial, ?_, by trivial, by simp [hpub]⟩
    simp only [memGetMediaAsset]
    rw [hupd]
    rfl


/-- Witness for claim C7 at the concrete finalize fixtures: the stored
"PNGDATA" object verifies against its digest (measured size 7) and the
asset row ends with that checksum and size; the mismatching digest
"0000" answers MEDIA_CHECKSUM with the store untouched. -/
theorem c7_finalize_checksum_and_frame_witness :
    (¬(reqFinalizeGood.assetId = "" ∨ reqFinalizeGood.sha256 = "") ∧
     memGetMediaAsset memStoreAsset reqFinalizeGood.assetId = some assetFix ∧
     assetFix.assetId = reqFinalizeGood.assetId ∧
     assetFix.did = envFinalizeStored.jwtDID ∧
     envFinalizeStored.mediaConfigured = true ∧
     envFinalizeStored.publishFails = false) ∧
    (handleFinalize memOps envFinalizeStored memStoreAsset (some reqFinalizeGood)).status
      = 200 ∧
    memGetMediaAsset (handleFinalize memOps envFinalizeStored memStoreAsset
        (some reqFinalizeGood)).store reqFinalizeGood.assetId =
      some { assetFix with size := 7, checksum := sha256Hex "PNGDATA" } ∧
    handleFinalize memOps envFinalizeStored memStoreAsset (some reqFinalizeBad) =
      { status := 400, code := some .mediaChecksum, store := memStoreAsset,
        responseAsset := none, events := [] } :=
  have hgood := c7_finalize_checksum_and_frame envFinalizeStored memStoreAsset
    reqFinalizeGood assetFix (by decide) (by decide) (by decide) (by decide)
    (by decide) (by decide)
  have hbad := c7_finalize_checksum_and_frame envFinalizeStored memStoreAsset
    reqFinalizeBad assetFix (by decide) (by decide) (by decide) (by decide)
    (by decide) (by decide)
  ⟨⟨by decide, by decide, by decide, by decide, by decide, by decide⟩,
   (hgood.2 7 (by rfl)).1, (hgood.2 7 (by rfl)).2.1, hbad.1 7 (by rfl)⟩


/-- Claim C6 counterexample: with the adapter configured and the
referenced object absent from the object store (no transport fault),
finalize answers 500 INTERNAL — not MEDIA_CHECKSUM/400 as the claim
states. -/
theorem c6_counterexample_missing_object_internal :
    (handleFinalize memOps envFinalizeMissing memStoreAsset (some reqFinalizeGood)).status
      = 500 ∧
    (handleFinalize memOps envFinalizeMissing memStoreAsset (some reqFinalizeGood)).code
      = some ErrCode.internal ∧
    (handleFinalize memOps envFinalizeMissing memStoreAsset (some reqFinalizeGood)).code
      ≠ some ErrCode.mediaChecksum ∧
    (handleFinalize memOps envFinalizeMissing memStoreAsset (some reqFinalizeGood)).status
      ≠ 400 := by
  decide

/-- Claim C6 (amended): `VerifyObject` wraps every HEAD failure —
a missing object included — in an error, and the handler maps any
verification error to INTERNAL (HTTP 500); a transport fault likewise
yields INTERNAL; MEDIA_CHECKSUM (HTTP 400) arises only from a digest
mismatch on an object that exists. -/
theorem c6_amended_missing_object_internal (env : FinalizeEnv) (st : MemoryStore)
    (req : FinalizeRequest) (a : MediaAsset)
    (hfields : ¬(req.assetId = "" ∨ req.sha256 = ""))
    (hget : memGetMediaAsset st req.assetId = some a)
    (hdid : a.did = env.jwtDID)
    (hconf : env.mediaConfigured = true) :
    (env.s3.transportFail = false →
     env.s3.objects.find?
        (fun x => x.1 == trimPfx a.uri ("s3://" ++ env.bucket ++ "/")) = none →
     handleFinalize memOps env st (some req) =
       { status := 500, code := some .internal, store := st,
         responseAsset := none, events := [] }) ∧
    (env.s3.transportFail = true →
     handleFinalize memOps env st (some req) =
       { status := 500, code := some .internal, store := st,
         responseAsset := none, events := [] }) ∧
    (∀ content : String, env.s3.transportFail = false →
     env.s3.objects.find?
        (fun x => x.1 == trimPfx a.uri ("s3://" ++ env.bucket ++ "/")) =
       some (trimPfx a.uri ("s3://" ++ env.bucket ++ "/"), content) →
     sha256Hex content ≠ req.sha256 →
     handleFinalize memOps env st (some req) =
       { status := 400, code := some .mediaChecksum, store := st,
         responseAsset := none, events := [] }) := by
  refine ⟨?_, ?_, ?_⟩
  · intro htr hmiss
    simp only [handleFinalize, memOps]
    rw [if_neg hfields]
    rw [hget]
    simp only []
    rw [if_neg (not_not_intro hdid)]
    rw [hconf]
    simp only [if_true, VerifyObject, headObject, htr, Bool.false_eq_true, if_false, hmiss]
    rfl
  · intro htr
    simp only [handleFinalize, memOps]
    rw [if_neg hfields]
    rw [hget]
    simp only []
    rw [if_neg (not_not_intro hdid)]
    rw [hconf]
    simp only [if_true, VerifyObject, headObject, htr, if_true]
    rfl
  · intro content htr hcont hne
    simp only [handleFinalize, memOps]
    rw [if_neg hfields]
    rw [hget]
    simp only []
    rw [if_neg (not_not_intro hdid)]
    rw [hconf]
    simp only [if_true, VerifyObject, headObject, getObject, htr, Bool.false_eq_true,
      if_false, hcont]
    rw [decide_eq_false hne]
    rfl


/-- Witness for the amended C6 theorem at the concrete fixtures: the
object store holds nothing, and finalize answers 500 INTERNAL. -/
theorem c6_amended_missing_object_internal_witness :
    (¬(reqFinalizeGood.assetId = "" ∨ reqFinalizeGood.sha256 = "") ∧
     memGetMediaAsset memStoreAsset reqFinalizeGood.assetId = some assetFix ∧
     assetFix.did = envFinalizeMissing.jwtDID ∧
     envFinalizeMissing.mediaConfigured = true) ∧
    handleFinalize memOps envFinalizeMissing memStoreAsset (some reqFinalizeGood) =
      { status := 500, code := some .internal, store := memStoreAsset,
        responseAsset := none, events := [] } :=
  have h := c6_amended_missing_object_internal envFinalizeMissing memStoreAsset
    reqFinalizeGood assetFix (by decide) (by decide) (by decide) (by decide)
  ⟨⟨by decide, by decide, by decide, by decide⟩, h.1 (by decide) (by rfl)⟩

/-- If no element satisfies `p`, none satisfies `p` conjoined with
anything. -/
theorem any_and_eq_false {α : Type} (l : List α) (p r : α → Bool)
    (h : l.any p = false) : l.any (fun x => p x && r x) = false := by
  simp only [List.any_eq_false] at h ⊢
  intro x hx
  simp [h x hx]

/-- If no element satisfies `p`, a conjoined search finds nothing. -/
theorem find?_eq_none_of_any_false {α : Type} (l : List α) (p r : α → Bool)
    (h : l.any p = false) : l.find? (fun x => p x && r x) = none := by
  rw [List.find?_eq_none]
  intro x hx
  simp only [List.any_eq_false] at h
  simp [h x hx]


/-- Claim C10: when the idempotency-store step reports CONFLICT and the
handler answers 409, the record created earlier in the same request
stays persisted and the record-created event stays published — nothing
is rolled back. -/
theorem c10_idem_conflict_preserves_side_effects (env : CreateEnv) (st : PgStore)
    (req : CreateRecordRequest) (ver : String)
    (hfields : ¬(req.collection = "" ∨ req.did = "" ∨ req.record = none))
    (hdid : req.did = env.jwtDID)
    (hkey : req.idempotencyKey ≠ "")
    (hprobe : pgGetIdempotentResponse st env.now (sha256Hex req.idempotencyKey) = none)
    (hval : env.validate req.collection ((req.record).getD "") = .ok ver)
    (hres : env.resolveSchemaVersion req.collection = .ok ver)
    (hdep : strEndsWith ver ":deprecated" = false)
    (hacct : st.accounts.contains req.did = true)
    (hnoconf : (st.records.any (fun x => x.uri == (mintRecord env req ver).uri ||
        x.id == (mintRecord env req ver).id ||
        (x.did == (mintRecord env req ver).did &&
         x.collection == (mintRecord env req ver).collection &&
         x.rkey == (mintRecord env req ver).rkey))) = false)
    (hpub : env.publishFails = false)
    (hstale : (st.idempotency.any (fun x => x.keyHash == sha256Hex req.idempotencyKey &&
        x.requestHash != (idemRowOf env req (mintRecord env req ver)).requestHash)) = true) :
    (handleCreateRecord pgOps env st (some req)).status = 409 ∧
    (handleCreateRecord pgOps env st (some req)).code = some .conflict ∧
    (handleCreateRecord pgOps env st (some req)).store.records =
      st.records ++ [mintRecord env req ver] ∧
    mintRecord env req ver ∈ (handleCreateRecord pgOps env st (some req)).store.records ∧
    (handleCreateRecord pgOps env st (some req)).events =
      [(req.collection, mintRecord env req ver)] := by
  rw [handleCreateRecord_pg_idem_conflict env st req ver hfields hdid hkey hprobe hval
    hres hdep hacct hnoconf hpub hstale]
  exact ⟨rfl, rfl, rfl, by simp, rfl⟩

/-- Witness for claim C10: the idempotency table holds an EXPIRED row
under key "k1" with a different request hash, so the probe misses, the
record is created and published, the store step conflicts, and the
request ends 409 with the record still present and the event emitted. -/
theorem c10_idem_conflict_preserves_side_effects_witness :
    (pgGetIdempotentResponse pgStoreStale envCreateA.now (sha256Hex "k1") = none ∧
     (pgStoreStale.idempotency.any (fun x => x.keyHash == sha256Hex "k1" &&
       x.requestHash !=
         (idemRowOf envCreateA reqIdemA (mintRecord envCreateA reqIdemA "1.0.0")).requestHash))
       = true) ∧
    (handleCreateRecord pgOps envCreateA pgStoreStale (some reqIdemA)).status = 409 ∧
    (handleCreateRecord pgOps envCreateA pgStoreStale (some reqIdemA)).code =
      some .conflict ∧
    (handleCreateRecord pgOps envCreateA pgStoreStale (some reqIdemA)).store.records =
      [mintRecord envCreateA reqIdemA "1.0.0"] ∧
    (handleCreateRecord pgOps envCreateA pgStoreStale (some reqIdemA)).events =
      [(reqIdemA.collection, mintRecord envCreateA reqIdemA "1.0.0")] :=
  have h := c10_idem_conflict_preserves_side_effects envCreateA pgStoreStale reqIdemA
    "1.0.0" (by decide) (by decide) (by decide) (by rfl) (by rfl) (by rfl) (by rfl)
    (by decide) (by decide) (by decide) (by decide)
  ⟨⟨by rfl, by decide⟩, h.1, h.2.1, h.2.2.1, h.2.2.2.2⟩


/-- Claim C1 counterexample: two sequential keyed POSTs with the same
key "k1" but different bodies — the first succeeds (200), and the
second does NOT return CONFLICT: the probe finds the cached entry for
the key (the lookup ignores the request hash entirely) and replays the
first response with status 200. -/
theorem c1_counterexample_conflict_never_reached :
    (handleCreateRecord pgOps envCreateA PgStore.empty (some reqIdemA)).status = 200 ∧
    (handleCreateRecord pgOps envCreateB
        (handleCreateRecord pgOps envCreateA PgStore.empty (some reqIdemA)).store
        (some reqIdemB)).status = 200 ∧
    (handleCreateRecord pgOps envCreateB
        (handleCreateRecord pgOps envCreateA PgStore.empty (some reqIdemA)).store
        (some reqIdemB)).code = none ∧
    (handleCreateRecord pgOps envCreateB
        (handleCreateRecord pgOps envCreateA PgStore.empty (some reqIdemA)).store
        (some reqIdemB)).status ≠ 409 := by
  decide

/-- Claim C1 (amended): within the TTL the second request never sees
CONFLICT — whenever the probe hits, the handler replays the stored
response verbatim (the first request cached status 200), regardless of
any body difference; CONFLICT (409) is produced only when the probe
misses (e.g. the earlier entry expired, or two requests raced past the
probe) and the relational idempotency store then finds an entry with
the same key hash and a different request hash. -/
theorem c1_amended_replay_or_conflict (env : CreateEnv) (st : PgStore)
    (req : CreateRecordRequest)
    (hfields : ¬(req.collection = "" ∨ req.did = "" ∨ req.record = none))
    (hdid : req.did = env.jwtDID)
    (hkey : req.idempotencyKey ≠ "") :
    (∀ (body : String) (status : Nat),
      pgGetIdempotentResponse st env.now (sha256Hex req.idempotencyKey) =
        some (body, status) →
      handleCreateRecord pgOps env st (some req) =
        { status := status, body := body, code := none, store := st,
          events := [], warnings := [] }) ∧
    (∀ ver : String,
      pgGetIdempotentResponse st env.now (sha256Hex req.idempotencyKey) = none →
      env.validate req.collection ((req.record).getD "") = .ok ver →
      env.resolveSchemaVersion req.collection = .ok ver →
      strEndsWith ver ":deprecated" = false →
      st.accounts.contains req.did = true →
      (st.records.any (fun x => x.uri == (mintRecord env req ver).uri ||
          x.id == (mintRecord env req ver).id ||
          (x.did == (mintRecord env req ver).did &&
           x.collection == (mintRecord env req ver).collection &&
           x.rkey == (mintRecord env req ver).rkey))) = false →
      env.publishFails = false →
      (st.idempotency.any (fun x => x.keyHash == sha256Hex req.idempotencyKey &&
          x.requestHash !=
            (idemRowOf env req (mintRecord env req ver)).requestHash)) = true →
      (handleCreateRecord pgOps env st (some req)).status = 409 ∧
      (handleCreateRecord pgOps env st (some req)).code = some .conflict) := by
  constructor
  · intro body status hprobe
    exact handleCreateRecord_replay pgOps env st req body status hfields hdid hkey hprobe
  · intro ver hprobe hval hres hdep hacct hnoconf hpub hstale
    rw [handleCreateRecord_pg_idem_conflict env st req ver hfields hdid hkey hprobe hval
      hres hdep hacct hnoconf hpub hstale]
    exact ⟨rfl, rfl⟩

/-- Witness for the amended C1 theorem: at the concrete two-request
fixture the probe hits and the differing second request is answered
with the replayed 200 response; at the stale-entry fixture the probe
misses and the store step yields 409 CONFLICT. -/
theorem c1_amended_replay_or_conflict_witness :
    (¬(reqIdemB.collection = "" ∨ reqIdemB.did = "" ∨ reqIdemB.record = none) ∧
     reqIdemB.did = envCreateB.jwtDID ∧ reqIdemB.idempotencyKey ≠ "") ∧
    handleCreateRecord pgOps envCreateB
        (handleCreateRecord pgOps envCreateA PgStore.empty (some reqIdemA)).store
        (some reqIdemB) =
      { status := 200
        body := createResponseBody (mintRecord envCreateA reqIdemA "1.0.0")
        code := none
        store := (handleCreateRecord pgOps envCreateA PgStore.empty (some reqIdemA)).store
        events := []
        warnings := [] } ∧
    (handleCreateRecord pgOps envCreateA pgStoreStale (some reqIdemA)).status = 409 ∧
    (handleCreateRecord pgOps envCreateA pgStoreStale (some reqIdemA)).code =
      some .conflict :=
  have hrep := c1_amended_replay_or_conflict envCreateB
    (handleCreateRecord pgOps envCreateA PgStore.empty (some reqIdemA)).store reqIdemB
    (by decide) (by decide) (by decide)
  have hcf := c1_amended_replay_or_conflict envCreateA pgStoreStale reqIdemA
    (by decide) (by decide) (by decide)
  ⟨⟨by decide, by decide, by decide⟩,
   hrep.1 (createResponseBody (mintRecord envCreateA reqIdemA "1.0.0")) 200 (by rfl),
   hcf.2 "1.0.0" (by rfl) (by rfl) (by rfl) (by rfl) (by decide) (by decide) (by decide)
     (by decide)⟩


/-- Claim C2 counterexample: two identical keyed POSTs both answer 200
— but the bodies are NOT byte-identical: the live response is written
by `json.Encoder.Encode` (which appends a newline) while the replay
writes the stored `json.Marshal` bytes verbatim, so the two bodies
differ by exactly the trailing newline. -/
theorem c2_counterexample_not_byte_identical :
    (handleCreateRecord pgOps envCreateA PgStore.empty (some reqIdemA)).status = 200 ∧
    (handleCreateRecord pgOps envCreateB
        (handleCreateRecord pgOps envCreateA PgStore.empty (some reqIdemA)).store
        (some reqIdemA)).status = 200 ∧
    (handleCreateRecord pgOps envCreateA PgStore.empty (some reqIdemA)).body ≠
      (handleCreateRecord pgOps envCreateB
        (handleCreateRecord pgOps envCreateA PgStore.empty (some reqIdemA)).store
        (some reqIdemA)).body ∧
    (handleCreateRecord pgOps envCreateA PgStore.empty (some reqIdemA)).body =
      (handleCreateRecord pgOps envCreateB
        (handleCreateRecord pgOps envCreateA PgStore.empty (some reqIdemA)).store
        (some reqIdemA)).body ++ "\n" := by
  decide

/-- Claim C2 (amended): for two requests with identical bodies and the
same key within the TTL, both answer 200 and the bodies agree up to the
trailing newline the encoder appends to the first; exactly one record
is persisted and exactly one event published across the pair; the
replay returns the stored body and status verbatim with no store
writes, no events and no logs. -/
theorem c2_amended_idempotent_replay (env env2 : CreateEnv) (st : PgStore)
    (req : CreateRecordRequest) (ver : String)
    (hfields : ¬(req.collection = "" ∨ req.did = "" ∨ req.record = none))
    (hdid : req.did = env.jwtDID)
    (hkey : req.idempotencyKey ≠ "")
    (hprobe : pgGetIdempotentResponse st env.now (sha256Hex req.idempotencyKey) = none)
    (hval : env.validate req.collection ((req.record).getD "") = .ok ver)
    (hres : env.resolveSchemaVersion req.collection = .ok ver)
    (hdep : strEndsWith ver ":deprecated" = false)
    (hacct : st.accounts.contains req.did = true)
    (hnoconf : (st.records.any (fun x => x.uri == (mintRecord env req ver).uri ||
        x.id == (mintRecord env req ver).id ||
        (x.did == (mintRecord env req ver).did &&
         x.collection == (mintRecord env req ver).collection &&
         x.rkey == (mintRecord env req ver).rkey))) = false)
    (hpub : env.publishFails = false)
    (hnokey : (st.idempotency.any
        (fun x => x.keyHash == sha256Hex req.idempotencyKey)) = false)
    (hdid2 : req.did = env2.jwtDID)
    (httl : env2.now < env.now + hours24) :
    (handleCreateRecord pgOps env st (some req)).status = 200 ∧
    (handleCreateRecord pgOps env st (some req)).body =
      encoderWrite (createResponseBody (mintRecord env req ver)) ∧
    handleCreateRecord pgOps env2
        (handleCreateRecord pgOps env st (some req)).store (some req) =
      { status := 200
        body := createResponseBody (mintRecord env req ver)
        code := none
        store := (handleCreateRecord pgOps env st (some req)).store
        events := []
        warnings := [] } ∧
    (handleCreateRecord pgOps env st (some req)).store.records =
      st.records ++ [mintRecord env req ver] ∧
    (handleCreateRecord pgOps env st (some req)).events =
      [(req.collection, mintRecord env req ver)] := by
  have hconf1 := any_and_eq_false st.idempotency
    (fun x => x.keyHash == sha256Hex req.idempotencyKey)
    (fun x => x.requestHash != (idemRowOf env req (mintRecord env req ver)).requestHash)
    hnokey
  have hconf2 := any_and_eq_false st.idempotency
    (fun x => x.keyHash == sha256Hex req.idempotencyKey)
    (fun x => x.requestHash == (idemRowOf env req (mintRecord env req ver)).requestHash)
    hnokey
  have h1 := handleCreateRecord_pg_success env st req ver hfields hdid hkey hprobe hval
    hres hdep hacct hnoconf hpub hconf1 hconf2
  have hlive := find?_eq_none_of_any_false st.idempotency
    (fun x => x.keyHash == sha256Hex req.idempotencyKey)
    (fun x => decide (env2.now < x.expiresAt)) hnokey
  have hprobe2 : pgGetIdempotentResponse
      (handleCreateRecord pgOps env st (some req)).store env2.now
      (sha256Hex req.idempotencyKey) =
      some (createResponseBody (mintRecord env req ver), 200) := by
    rw [h1]
    simp only [pgGetIdempotentResponse]
    rw [List.find?_append, hlive, Option.none_or]
    rw [List.find?_cons_of_pos _ (by simp [idemRowOf, httl])]
    rfl
  have h2 := handleCreateRecord_replay pgOps env2
    (handleCreateRecord pgOps env st (some req)).store req
    (createResponseBody (mintRecord env req ver)) 200 hfields hdid2 hkey hprobe2
  exact ⟨by rw [h1], by rw [h1], h2, by rw [h1], by rw [h1]⟩

/-- Witness for the amended C2 theorem at the concrete fixtures: the
pair of identical requests under key "k1" on the empty store. -/
theorem c2_amended_idempotent_replay_witness :
    (¬(reqIdemA.collection = "" ∨ reqIdemA.did = "" ∨ reqIdemA.record = none) ∧
     reqIdemA.did = envCreateA.jwtDID ∧ reqIdemA.idempotencyKey ≠ "" ∧
     reqIdemA.did = envCreateB.jwtDID ∧ envCreateB.now < envCreateA.now + hours24) ∧
    (handleCreateRecord pgOps envCreateA pgStoreAlice (some reqIdemA)).status = 200 ∧
    handleCreateRecord pgOps envCreateB
        (handleCreateRecord pgOps envCreateA pgStoreAlice (some reqIdemA)).store
        (some reqIdemA) =
      { status := 200
        body := createResponseBody (mintRecord envCreateA reqIdemA "1.0.0")
        code := none
        store := (handleCreateRecord pgOps envCreateA pgStoreAlice (some reqIdemA)).store
        events := []
        warnings := [] } ∧
    (handleCreateRecord pgOps envCreateA pgStoreAlice (some reqIdemA)).store.records =
      [mintRecord envCreateA reqIdemA "1.0.0"] :=
  have h := c2_amended_idempotent_replay envCreateA envCreateB pgStoreAlice reqIdemA
    "1.0.0" (by decide) (by decide) (by decide) (by rfl) (by rfl) (by rfl) (by rfl)
    (by decide) (by decide) (by decide) (by decide) (by decide) (by decide)
  ⟨⟨by decide, by decide, by decide, by decide, by decide⟩, h.1, h.2.2.1, h.2.2.2.1⟩

end CDV
